import Mathlib

/-!
Verification of the code-search-mcp embedding scripts.

The repository has two Python entry points:
  * `Scripts/bert_embedding_server.py` — an HTTP server exposing
    `GET /health` and `POST /embed`;
  * `Scripts/generate_embeddings.py` — a one-shot stdin/stdout tool.

Both are thin glue around an external sentence-transformers model
(`all-MiniLM-L6-v2`, 384-dimensional vectors).  The model itself is not
part of the repository; where a property depends on it, the provider is
modelled from the specification's contract (one fixed-length vector per
input text, items of a batch encoded independently).  Vector entries are
opaque floating-point numbers that the scripts only pass through, so they
are modelled as integers.
-/

/-- A JSON value, as produced by Python's `json.loads` / consumed by
`json.dumps`.  Numbers are modelled as integers: the scripts never compute
with the numeric values, they only pass them through. -/
inductive Json where
  | null : Json
  | bool (b : Bool) : Json
  | num (n : Int) : Json
  | str (s : String) : Json
  | arr (xs : List Json) : Json
  | obj (fields : List (String × Json)) : Json

/-- Whether a JSON value is an array (`isinstance(texts, list)` in the
server's validation). -/
def Json.isArr : Json → Bool
  | Json.arr _ => true
  | _ => false

/-- An HTTP response: either `send_response(status)` followed by a JSON
body, or `send_error(status, message)`. -/
inductive HttpResponse where
  | json (status : Nat) (body : Json) : HttpResponse
  | err (status : Nat) (message : String) : HttpResponse

/-- The status code of a response. -/
def HttpResponse.status : HttpResponse → Nat
  | HttpResponse.json s _ => s
  | HttpResponse.err s _ => s

/-- `EmbeddingHandler.do_GET` (bert_embedding_server.py, lines 60–73):
`/health` answers 200 with the fixed health JSON, every other path 404. -/
def do_GET (path : String) : HttpResponse :=
  if path = "/health" then
    HttpResponse.json 200 (Json.obj
      [("status", Json.str "healthy"),
       ("model", Json.str "all-MiniLM-L6-v2"),
       ("dimension", Json.num 384)])
  else
    HttpResponse.err 404 "Not Found"

/-- The success body built by `do_POST` (lines 112–116):
`embeddings` as a JSON array of arrays, the hard-coded `dimension` 384 and
`count = len(embeddings_list)`. -/
def embedSuccessBody (embs : List (List Int)) : Json :=
  Json.obj
    [("embeddings", Json.arr (embs.map (fun v => Json.arr (v.map Json.num)))),
     ("dimension", Json.num 384),
     ("count", Json.num embs.length)]

/-- `EmbeddingHandler.do_POST` (bert_embedding_server.py, lines 75–125).

Parameters of the embedding:
  * `enc` is the combined effect of `get_model()` followed by
    `model.encode(texts)` and the NumPy→list conversion: the external
    model call, which may raise (`Except.error` carries `str(e)`; the
    generic `except Exception` branch maps it to a 500).
  * `body` is the outcome of reading the body and `json.loads`:
    `Except.error` is a `json.JSONDecodeError` (mapped to a 400), `Except.ok`
    a decoded top-level JSON object given as its field list.  (All
    specified behaviour of the endpoint concerns object bodies.)

The returned `Bool` records whether the model call `enc` was reached. -/
def do_POST (enc : List Json → Except String (List (List Int)))
    (path : String) (body : Except String (List (String × Json))) :
    HttpResponse × Bool :=
  if path = "/embed" then
    match body with
    | Except.error e => (HttpResponse.err 400 ("Invalid JSON: " ++ e), false)
    | Except.ok data =>
      match data.lookup "texts" with
      | none =>
          (HttpResponse.err 400 "Missing \x27texts\x27 field in request", false)
      | some (Json.arr []) =>
          (HttpResponse.err 400 "\x27texts\x27 array cannot be empty", false)
      | some (Json.arr (t :: ts)) =>
          (match enc (t :: ts) with
           | Except.ok embs => (HttpResponse.json 200 (embedSuccessBody embs), true)
           | Except.error e =>
               (HttpResponse.err 500 ("Internal server error: " ++ e), true))
      | some _ =>
          (HttpResponse.err 400 "\x27texts\x27 must be an array", false)
  else
    (HttpResponse.err 404 "Not Found - use /embed", false)

/-- One HTTP request as the handler sees it: the method string
(`self.command`), the path, and (for POST) the parse outcome of the body. -/
structure HttpRequest where
  method : String
  path : String
  body : Except String (List (String × Json))

/-- Dispatch of one request.  The `do_GET` / `do_POST` branches are the
repository's handler class; the method lookup itself is performed by
Python's `http.server.BaseHTTPRequestHandler` (external to the
repository), which for a method with no `do_<METHOD>` member answers
`send_error(501, "Unsupported method ...")`. -/
def handleRequest (enc : List Json → Except String (List (List Int)))
    (r : HttpRequest) : HttpResponse × Bool :=
  if r.method = "GET" then (do_GET r.path, false)
  else if r.method = "POST" then do_POST enc r.path r.body
  else (HttpResponse.err 501 ("Unsupported method (\x27" ++ r.method ++ "\x27)"), false)

/-- The server loop (`run_server` / `serve_forever`): every accepted
request is handled to completion by `handleRequest`; the handler catches
all exceptions, so serving is a total map over the request sequence. -/
def serveAll (enc : List Json → Except String (List (List Int)))
    (reqs : List HttpRequest) : List (HttpResponse × Bool) :=
  reqs.map (handleRequest enc)

/-- Result of one invocation of the stdio tool: the JSON documents printed
to standard output (exactly one per run), the lines written to standard
error, the process exit code, and which of the two model entry points was
invoked. -/
structure StdioResult where
  stdout : List Json
  stderr : List String
  exitCode : Nat
  invokedEmb : Bool
  invokedBatch : Bool

/-- The JSON error document `json.dumps({'error': e})`. -/
def errObj (e : String) : Json :=
  Json.obj [("error", Json.str e)]

/-- The fixed invalid-request message of generate_embeddings.py line 49. -/
def invalidRequestMsg : String :=
  "Invalid request: must provide \x22text\x22 or \x22texts\x22"

/-- `main` of generate_embeddings.py (lines 35–58).

Parameters of the embedding:
  * `genEmb v` is the outcome of `generate_embedding(request['text'])` at
    field value `v` — the single-text model call, which may raise;
  * `genBatch v` likewise for `generate_batch_embeddings(request['texts'])`;
  * `input` is the outcome of `json.loads(sys.stdin.read())`:
    `Except.error` a parse failure (its `str(e)`), `Except.ok` a decoded
    top-level JSON object given as its field list.  (All specified
    behaviour of the tool concerns object inputs.)

The `except Exception` handler prints `{'error': str(e)}`, writes
`Error: {e}` to stderr and exits 1; every other branch exits 0. -/
def stdioMain (genEmb : Json → Except String (List Int))
    (genBatch : Json → Except String (List (List Int)))
    (input : Except String (List (String × Json))) : StdioResult :=
  match input with
  | Except.error e =>
      StdioResult.mk [errObj e] ["Error: " ++ e] 1 false false
  | Except.ok request =>
    match request.lookup "text" with
    | some v =>
      match genEmb v with
      | Except.ok emb =>
          StdioResult.mk
            [Json.obj [("embedding", Json.arr (emb.map Json.num)),
                       ("dimension", Json.num emb.length)]]
            [] 0 true false
      | Except.error e =>
          StdioResult.mk [errObj e] ["Error: " ++ e] 1 true false
    | none =>
      match request.lookup "texts" with
      | some v =>
        match genBatch v with
        | Except.ok embs =>
            StdioResult.mk
              [Json.obj [("embeddings",
                           Json.arr (embs.map (fun r => Json.arr (r.map Json.num)))),
                         ("count", Json.num embs.length)]]
              [] 0 false true
        | Except.error e =>
            StdioResult.mk [errObj e] ["Error: " ++ e] 1 false true
      | none =>
          StdioResult.mk [errObj invalidRequestMsg] [] 0 false false

/-- Modelled from the spec: the external sentence-transformers model
provider (`all-MiniLM-L6-v2`), whose implementation is not part of this
repository.  Its contract is `embed(text) -> vector<float, 384>`;
`encodeOne` gives the vector for one text.  Vector entries are opaque
numbers modelled as integers. -/
structure SpecModel where
  encodeOne : String → List Int

/-- Modelled from the spec: the provider's batch operation
`embed_batch(texts) -> sequence<vector<float,384>>`.  Per the spec's
glossary a batch is "a list of independent text inputs … with no
cross-item interaction", so the batch call encodes each item
independently, preserving order. -/
def SpecModel.encodeBatch (m : SpecModel) (texts : List String) : List (List Int) :=
  texts.map m.encodeOne

/-- `generate_embedding` (generate_embeddings.py, lines 23–27): load the
model, `model.encode(text, convert_to_numpy=True)`, convert to a list. -/
def generate_embedding (m : SpecModel) (text : String) : List Int :=
  m.encodeOne text

/-- `generate_batch_embeddings` (generate_embeddings.py, lines 29–33):
load the model, `model.encode(texts, convert_to_numpy=True, batch_size=32)`,
convert to a list of lists. -/
def generate_batch_embeddings (m : SpecModel) (texts : List String) : List (List Int) :=
  m.encodeBatch texts

/-- The process-wide model singleton state: the global `_model` variable
(`None` at process start) together with a count of how many times the
model constructor has been run in this process. -/
structure ModelSt (M : Type) where
  handle : Option M
  loads : Nat

/-- The state at process start: `_model = None`, nothing constructed. -/
def ModelSt.init (M : Type) : ModelSt M :=
  ModelSt.mk none 0

/-- `get_model` of bert_embedding_server.py (lines 30–50), as explicit
state passing.  `construct` is the fixed outcome of
`SentenceTransformer('all-MiniLM-L6-v2')` in this process environment
(`Except.error` covers the ImportError → RuntimeError path and any other
construction failure, which is re-raised and leaves `_model` unassigned).
Sequentially the double-checked lock collapses to a single null-check. -/
def get_model {M : Type} (construct : Except String M) (st : ModelSt M) :
    ModelSt M × Except String M :=
  match st.handle with
  | some m => (st, Except.ok m)
  | none =>
    match construct with
    | Except.ok m => (ModelSt.mk (some m) (st.loads + 1), Except.ok m)
    | Except.error e => (st, Except.error e)

/-- `load_model` of generate_embeddings.py (lines 17–21): the same
null-check-then-construct pattern without a lock; a construction failure
propagates to the caller and leaves the global unassigned. -/
def load_model {M : Type} (construct : Except String M) (st : ModelSt M) :
    ModelSt M × Except String M :=
  match st.handle with
  | some m => (st, Except.ok m)
  | none =>
    match construct with
    | Except.ok m => (ModelSt.mk (some m) (st.loads + 1), Except.ok m)
    | Except.error e => (st, Except.error e)

/-- The state after `n` successive calls of `get_model` starting from
process start. -/
def runCalls {M : Type} (construct : Except String M) : Nat → ModelSt M
  | 0 => ModelSt.init M
  | n + 1 => (get_model construct (runCalls construct n)).1

/-- Modelled from the spec: a successful run of the provider's batch
operation, encoding each text of the batch independently with `encJ`
(the raw decoded JSON values are what the server passes to the model). -/
def specEnc (encJ : Json → List Int) : List Json → Except String (List (List Int)) :=
  fun ts => Except.ok (ts.map encJ)

/-- A concrete provider instance used to instantiate witnesses: every
text maps to the zero vector of length 384. -/
def model0 : SpecModel :=
  SpecModel.mk (fun _ => List.replicate 384 0)

/-- A concrete batch-call instance for witnesses: each item of the batch
maps to the zero vector of length 384. -/
def enc0 : List Json → Except String (List (List Int)) :=
  fun ts => Except.ok (ts.map (fun _ => List.replicate 384 0))

/-- C1: for every non-empty list of strings `texts`, the batch embedding
operation returns a list of the same length as `texts`, and every element
of the result is a vector of exactly 384 numbers. -/
theorem embed_batch_length_and_dim (m : SpecModel)
    (hdim : ∀ t, (m.encodeOne t).length = 384)
    (texts : List String) (hne : texts ≠ []) :
    (generate_batch_embeddings m texts).length = texts.length ∧
    ∀ v ∈ generate_batch_embeddings m texts, v.length = 384 := by
  constructor
  · simp [generate_batch_embeddings, SpecModel.encodeBatch]
  · intro v hv
    simp only [generate_batch_embeddings, SpecModel.encodeBatch, List.mem_map] at hv
    obtain ⟨t, _, rfl⟩ := hv
    exact hdim t

/-- Witness for C1 at the concrete provider `model0` and batch `["hello"]`:
one embedding comes back and it has length 384. -/
theorem embed_batch_length_and_dim_witness :
    (generate_batch_embeddings model0 ["hello"]).length = (["hello"] : List String).length ∧
    (List.replicate 384 (0 : Int)).length = 384 :=
  ⟨(embed_batch_length_and_dim model0
      (fun t => show (List.replicate 384 (0 : Int)).length = 384 by
        rw [List.length_replicate])
      ["hello"] (by simp)).1,
   (embed_batch_length_and_dim model0
      (fun t => show (List.replicate 384 (0 : Int)).length = 384 by
        rw [List.length_replicate])
      ["hello"] (by simp)).2 (List.replicate 384 0)
      (by exact List.mem_singleton.mpr rfl)⟩

/-- C6: the single-embedding operation and the batch operation agree:
`generate_embedding m t` is the first (and only) element of
`generate_batch_embeddings m [t]`. -/
theorem embed_single_batch_consistent (m : SpecModel) (t : String) :
    (generate_batch_embeddings m [t]).head? = some (generate_embedding m t) :=
  rfl

/-- C2: a POST /embed whose body is a JSON object with a non-empty array
field `texts` is answered 200 with `embeddings`/`dimension`/`count`
obtained from the provider's batch operation: `embeddings` lists
`encJ texts[i]` positionally, `dimension` is the literal 384 inside
`embedSuccessBody`, and `count` is the number of embeddings returned. -/
theorem post_embed_success (encJ : Json → List Int)
    (data : List (String × Json)) (t : Json) (ts : List Json)
    (h : data.lookup "texts" = some (Json.arr (t :: ts))) :
    do_POST (specEnc encJ) "/embed" (Except.ok data) =
      (HttpResponse.json 200 (embedSuccessBody ((t :: ts).map encJ)), true) ∧
    ((t :: ts).map encJ).length = (t :: ts).length ∧
    ∀ i (hi : i < (t :: ts).length),
      ((t :: ts).map encJ)[i]? = some (encJ ((t :: ts).get ⟨i, hi⟩)) := by
  refine ⟨?_, by simp, ?_⟩
  · simp [do_POST, h, specEnc]
  · intro i hi
    simp only [List.getElem?_map, List.getElem?_eq_getElem hi, List.get_eq_getElem]
    rfl

/-- Witness for C2 at the body with `texts = ["a", "b"]` and the
zero-vector provider. -/
theorem post_embed_success_witness :
    do_POST (specEnc (fun _ => List.replicate 384 0)) "/embed"
        (Except.ok [("texts", Json.arr [Json.str "a", Json.str "b"])]) =
      (HttpResponse.json 200
        (embedSuccessBody ([Json.str "a", Json.str "b"].map (fun _ => List.replicate 384 0))),
       true) ∧
    ([Json.str "a", Json.str "b"].map
        (fun _ => List.replicate 384 (0 : Int))).length =
      ([Json.str "a", Json.str "b"] : List Json).length ∧
    ([Json.str "a", Json.str "b"].map (fun _ => List.replicate 384 (0 : Int)))[0]? =
      some ((fun _ => List.replicate 384 (0 : Int))
        (([Json.str "a", Json.str "b"] : List Json).get ⟨0, by decide⟩)) :=
  ⟨(post_embed_success (fun _ => List.replicate 384 0)
      [("texts", Json.arr [Json.str "a", Json.str "b"])]
      (Json.str "a") [Json.str "b"] rfl).1,
   (post_embed_success (fun _ => List.replicate 384 0)
      [("texts", Json.arr [Json.str "a", Json.str "b"])]
      (Json.str "a") [Json.str "b"] rfl).2.1,
   (post_embed_success (fun _ => List.replicate 384 0)
      [("texts", Json.arr [Json.str "a", Json.str "b"])]
      (Json.str "a") [Json.str "b"] rfl).2.2 0 (by decide)⟩

/-- C3: the three validation failures of POST /embed — `texts` absent,
`texts` not an array, `texts` an empty array — each answer 400 with their
message, and in each case the model call is not reached (flag `false`). -/
theorem post_embed_validation (enc : List Json → Except String (List (List Int)))
    (d₁ d₂ d₃ : List (String × Json)) (v : Json)
    (h₁ : d₁.lookup "texts" = none)
    (h₂ : d₂.lookup "texts" = some v) (hv : v.isArr = false)
    (h₃ : d₃.lookup "texts" = some (Json.arr [])) :
    do_POST enc "/embed" (Except.ok d₁) =
      (HttpResponse.err 400 "Missing \x27texts\x27 field in request", false) ∧
    do_POST enc "/embed" (Except.ok d₂) =
      (HttpResponse.err 400 "\x27texts\x27 must be an array", false) ∧
    do_POST enc "/embed" (Except.ok d₃) =
      (HttpResponse.err 400 "\x27texts\x27 array cannot be empty", false) := by
    refine ⟨by simp [do_POST, h₁], ?_, by simp [do_POST, h₃]⟩
    cases v with
    | arr xs => simp [Json.isArr] at hv
    | null => simp [do_POST, h₂]
    | bool b => simp [do_POST, h₂]
    | num n => simp [do_POST, h₂]
    | str s => simp [do_POST, h₂]
    | obj fs => simp [do_POST, h₂]

/-- Witness for C3 at three concrete bodies. -/
theorem post_embed_validation_witness :
    do_POST enc0 "/embed" (Except.ok [("foo", Json.null)]) =
      (HttpResponse.err 400 "Missing \x27texts\x27 field in request", false) ∧
    do_POST enc0 "/embed" (Except.ok [("texts", Json.str "not a list")]) =
      (HttpResponse.err 400 "\x27texts\x27 must be an array", false) ∧
    do_POST enc0 "/embed" (Except.ok [("texts", Json.arr [])]) =
      (HttpResponse.err 400 "\x27texts\x27 array cannot be empty", false) :=
  post_embed_validation enc0 [("foo", Json.null)]
    [("texts", Json.str "not a list")] [("texts", Json.arr [])]
    (Json.str "not a list") rfl rfl rfl rfl

/-- A batch call that always fails, standing for a model-load or inference
exception in witnesses. -/
def encFail : List Json → Except String (List (List Int)) :=
  fun _ => Except.error "boom"

/-- C4 counterexample: a PUT request to /embed is answered 501
(Unsupported method) by the http.server dispatch — the handler class
defines only `do_GET` and `do_POST` — not 404 as claimed. -/
theorem other_method_not_404 :
    (handleRequest enc0 (HttpRequest.mk "PUT" "/embed" (Except.ok []))).1 =
      HttpResponse.err 501 "Unsupported method (\x27PUT\x27)" ∧
    (501 : Nat) ≠ 404 := by
  refine ⟨?_, by decide⟩
  simp [handleRequest]

/-- C4 (amended): a GET to any path other than /health and a POST to any
path other than /embed are answered 404; a request whose method is
neither GET nor POST is answered 501 by the http.server dispatch. -/
theorem unknown_route_404_or_501
    (enc : List Json → Except String (List (List Int)))
    (p₁ p₂ p₃ m : String) (b₁ b₂ b₃ : Except String (List (String × Json)))
    (h₁ : p₁ ≠ "/health") (h₂ : p₂ ≠ "/embed")
    (h₃ : m ≠ "GET") (h₄ : m ≠ "POST") :
    handleRequest enc (HttpRequest.mk "GET" p₁ b₁) =
      (HttpResponse.err 404 "Not Found", false) ∧
    handleRequest enc (HttpRequest.mk "POST" p₂ b₂) =
      (HttpResponse.err 404 "Not Found - use /embed", false) ∧
    (handleRequest enc (HttpRequest.mk m p₃ b₃)).1.status = 501 := by
  refine ⟨?_, ?_, ?_⟩
  · simp [handleRequest, do_GET, h₁]
  · simp [handleRequest, do_POST, h₂]
  · simp [handleRequest, h₃, h₄, HttpResponse.status]

/-- Witness for the amended C4 at concrete requests. -/
theorem unknown_route_404_or_501_witness :
    handleRequest enc0 (HttpRequest.mk "GET" "/nope" (Except.ok [])) =
      (HttpResponse.err 404 "Not Found", false) ∧
    handleRequest enc0 (HttpRequest.mk "POST" "/health" (Except.ok [])) =
      (HttpResponse.err 404 "Not Found - use /embed", false) ∧
    (handleRequest enc0 (HttpRequest.mk "DELETE" "/health" (Except.ok []))).1.status = 501 :=
  unknown_route_404_or_501 enc0 "/nope" "/health" "/health" "DELETE"
    (Except.ok []) (Except.ok []) (Except.ok [])
    (by decide) (by decide) (by decide) (by decide)

/-- C5: a POST /embed whose model call raises with message `e` is answered
500 carrying the message (with the generic except-branch prefix), and the
server keeps serving: in any request sequence, every request — also the
ones after a failing one — is answered by the total handler. -/
theorem post_embed_failure_500_and_server_survives
    (enc : List Json → Except String (List (List Int)))
    (data : List (String × Json)) (t : Json) (ts : List Json) (e : String)
    (pre post : List HttpRequest) (r : HttpRequest)
    (h : data.lookup "texts" = some (Json.arr (t :: ts)))
    (he : enc (t :: ts) = Except.error e) :
    do_POST enc "/embed" (Except.ok data) =
      (HttpResponse.err 500 ("Internal server error: " ++ e), true) ∧
    serveAll enc (pre ++ r :: post) =
      serveAll enc pre ++ handleRequest enc r :: serveAll enc post := by
  constructor
  · simp [do_POST, h, he]
  · simp [serveAll]

/-- Witness for C5: a failing model call at a concrete body, inside a
concrete three-request sequence. -/
theorem post_embed_failure_500_and_server_survives_witness :
    do_POST encFail "/embed" (Except.ok [("texts", Json.arr [Json.str "a"])]) =
      (HttpResponse.err 500 ("Internal server error: " ++ "boom"), true) ∧
    serveAll encFail
        ([HttpRequest.mk "GET" "/health" (Except.ok [])] ++
          HttpRequest.mk "POST" "/embed" (Except.ok [("texts", Json.arr [Json.str "a"])]) ::
          [HttpRequest.mk "GET" "/health" (Except.ok [])]) =
      serveAll encFail [HttpRequest.mk "GET" "/health" (Except.ok [])] ++
        handleRequest encFail
          (HttpRequest.mk "POST" "/embed" (Except.ok [("texts", Json.arr [Json.str "a"])])) ::
        serveAll encFail [HttpRequest.mk "GET" "/health" (Except.ok [])] :=
  post_embed_failure_500_and_server_survives encFail
    [("texts", Json.arr [Json.str "a"])] (Json.str "a") [] "boom"
    [HttpRequest.mk "GET" "/health" (Except.ok [])]
    [HttpRequest.mk "GET" "/health" (Except.ok [])]
    (HttpRequest.mk "POST" "/embed" (Except.ok [("texts", Json.arr [Json.str "a"])]))
    rfl rfl

/-- A concrete single-text model call for witnesses: every value maps to
the zero vector of length 384. -/
def ge0 : Json → Except String (List Int) :=
  fun _ => Except.ok (List.replicate 384 0)

/-- A concrete batch model call for witnesses and the stdio
counterexample.  Like the real provider, a JSON array maps to one vector
per element (so an empty array maps to an empty list of embeddings); any
other value maps to a single vector, as `model.encode` does for a scalar
string. -/
def gb0 : Json → Except String (List (List Int))
  | Json.arr xs => Except.ok (xs.map (fun _ => List.replicate 384 0))
  | _ => Except.ok [List.replicate 384 0]

/-- A single-text model call that always raises, for the C8 witness. -/
def geFail : Json → Except String (List Int) :=
  fun _ => Except.error "emb boom"

/-- A batch model call that always raises, for the C8 witness. -/
def gbFail : Json → Except String (List (List Int)) :=
  fun _ => Except.error "batch boom"

/-- C7: a stdio request that is a JSON object with neither a `text` nor a
`texts` field produces exactly the invalid-request error document on
stdout, nothing on stderr, and exit code 0, with neither model entry
point invoked; the document is the literal
`\x7b"error": "Invalid request: must provide \x22text\x22 or \x22texts\x22"\x7d`. -/
theorem stdio_invalid_request (genEmb : Json → Except String (List Int))
    (genBatch : Json → Except String (List (List Int)))
    (fields : List (String × Json))
    (h₁ : fields.lookup "text" = none) (h₂ : fields.lookup "texts" = none) :
    stdioMain genEmb genBatch (Except.ok fields) =
      StdioResult.mk [errObj invalidRequestMsg] [] 0 false false ∧
    errObj invalidRequestMsg =
      Json.obj [("error",
        Json.str "Invalid request: must provide \x22text\x22 or \x22texts\x22")] := by
  constructor
  · simp [stdioMain, h₁, h₂]
  · rfl

/-- Witness for C7 at the empty JSON object. -/
theorem stdio_invalid_request_witness :
    stdioMain ge0 gb0 (Except.ok []) =
      StdioResult.mk [errObj invalidRequestMsg] [] 0 false false ∧
    errObj invalidRequestMsg =
      Json.obj [("error",
        Json.str "Invalid request: must provide \x22text\x22 or \x22texts\x22")] :=
  stdio_invalid_request ge0 gb0 [] rfl rfl

/-- C8: whenever the stdio run raises — the input fails to parse, the
single-text model call raises, or the batch model call raises — the
process prints the error document to stdout, writes an `Error:` line to
stderr, and exits 1 (non-zero). -/
theorem stdio_exception_behavior (genEmb : Json → Except String (List Int))
    (genBatch : Json → Except String (List (List Int))) (e₁ e₂ e₃ : String)
    (f₂ f₃ : List (String × Json)) (v₂ v₃ : Json)
    (h₂ : f₂.lookup "text" = some v₂) (hge : genEmb v₂ = Except.error e₂)
    (h₃ : f₃.lookup "text" = none) (h₃b : f₃.lookup "texts" = some v₃)
    (hgb : genBatch v₃ = Except.error e₃) :
    stdioMain genEmb genBatch (Except.error e₁) =
      StdioResult.mk [errObj e₁] ["Error: " ++ e₁] 1 false false ∧
    stdioMain genEmb genBatch (Except.ok f₂) =
      StdioResult.mk [errObj e₂] ["Error: " ++ e₂] 1 true false ∧
    stdioMain genEmb genBatch (Except.ok f₃) =
      StdioResult.mk [errObj e₃] ["Error: " ++ e₃] 1 false true := by
  refine ⟨rfl, ?_, ?_⟩
  · simp [stdioMain, h₂, hge]
  · simp [stdioMain, h₃, h₃b, hgb]

/-- Witness for C8: a parse failure, a failing single-text call and a
failing batch call at concrete inputs. -/
theorem stdio_exception_behavior_witness :
    stdioMain geFail gbFail (Except.error "bad json") =
      StdioResult.mk [errObj "bad json"] ["Error: " ++ "bad json"] 1 false false ∧
    stdioMain geFail gbFail (Except.ok [("text", Json.str "x")]) =
      StdioResult.mk [errObj "emb boom"] ["Error: " ++ "emb boom"] 1 true false ∧
    stdioMain geFail gbFail (Except.ok [("texts", Json.arr [Json.str "x"])]) =
      StdioResult.mk [errObj "batch boom"] ["Error: " ++ "batch boom"] 1 false true :=
  stdio_exception_behavior geFail gbFail "bad json" "emb boom" "batch boom"
    [("text", Json.str "x")] [("texts", Json.arr [Json.str "x"])]
    (Json.str "x") (Json.arr [Json.str "x"]) rfl rfl rfl rfl rfl

/-- C9 counterexample: the stdio tool forwards the constraint-violating
request with `texts = []` (an empty batch) to the model call and answers
it as a success — `embeddings` empty, `count` 0, exit code 0 — instead of
rejecting it as an error. -/
theorem stdio_forwards_empty_batch :
    stdioMain ge0 gb0 (Except.ok [("texts", Json.arr [])]) =
      StdioResult.mk
        [Json.obj [("embeddings", Json.arr []), ("count", Json.num 0)]]
        [] 0 false true :=
  rfl

/-- C9 (amended): only the HTTP /embed endpoint enforces the data-model
constraint — a request whose `texts` is absent, not an array, or an empty
array is answered 400 without the model call being reached (element types
are not checked); the stdio tool performs no such validation and forwards
any `texts` value to its batch model call. -/
theorem request_validation_http_only
    (enc : List Json → Except String (List (List Int)))
    (genEmb : Json → Except String (List Int))
    (genBatch : Json → Except String (List (List Int)))
    (d₁ d₂ d₃ f : List (String × Json)) (v w : Json)
    (h₁ : d₁.lookup "texts" = none)
    (h₂ : d₂.lookup "texts" = some v) (hv : v.isArr = false)
    (h₃ : d₃.lookup "texts" = some (Json.arr []))
    (hf₁ : f.lookup "text" = none) (hf₂ : f.lookup "texts" = some w) :
    ((do_POST enc "/embed" (Except.ok d₁)).1.status = 400 ∧
      (do_POST enc "/embed" (Except.ok d₁)).2 = false) ∧
    ((do_POST enc "/embed" (Except.ok d₂)).1.status = 400 ∧
      (do_POST enc "/embed" (Except.ok d₂)).2 = false) ∧
    ((do_POST enc "/embed" (Except.ok d₃)).1.status = 400 ∧
      (do_POST enc "/embed" (Except.ok d₃)).2 = false) ∧
    (stdioMain genEmb genBatch (Except.ok f)).invokedBatch = true := by
  refine ⟨?_, ?_, ?_, ?_⟩
  · constructor <;> simp [do_POST, h₁, HttpResponse.status]
  · cases v with
    | arr xs => simp [Json.isArr] at hv
    | null => constructor <;> simp [do_POST, h₂, HttpResponse.status]
    | bool b => constructor <;> simp [do_POST, h₂, HttpResponse.status]
    | num n => constructor <;> simp [do_POST, h₂, HttpResponse.status]
    | str s => constructor <;> simp [do_POST, h₂, HttpResponse.status]
    | obj fs => constructor <;> simp [do_POST, h₂, HttpResponse.status]
  · constructor <;> simp [do_POST, h₃, HttpResponse.status]
  · cases hb : genBatch w <;> simp [stdioMain, hf₁, hf₂, hb]

/-- Witness for the amended C9 at concrete requests. -/
theorem request_validation_http_only_witness :
    ((do_POST enc0 "/embed" (Except.ok [("foo", Json.null)])).1.status = 400 ∧
      (do_POST enc0 "/embed" (Except.ok [("foo", Json.null)])).2 = false) ∧
    ((do_POST enc0 "/embed" (Except.ok [("texts", Json.num 3)])).1.status = 400 ∧
      (do_POST enc0 "/embed" (Except.ok [("texts", Json.num 3)])).2 = false) ∧
    ((do_POST enc0 "/embed" (Except.ok [("texts", Json.arr [])])).1.status = 400 ∧
      (do_POST enc0 "/embed" (Except.ok [("texts", Json.arr [])])).2 = false) ∧
    (stdioMain ge0 gb0 (Except.ok [("texts", Json.str "scalar")])).invokedBatch = true :=
  request_validation_http_only enc0 ge0 gb0
    [("foo", Json.null)] [("texts", Json.num 3)] [("texts", Json.arr [])]
    [("texts", Json.str "scalar")] (Json.num 3) (Json.str "scalar")
    rfl rfl rfl rfl rfl rfl

/-- Invariant of the call sequence: at every point the singleton state is
either still unconstructed (as at process start) or holds the
successfully constructed handle with exactly one load. -/
theorem runCalls_cases {M : Type} (c : Except String M) (n : Nat) :
    runCalls c n = ModelSt.init M ∨
    ∃ m, c = Except.ok m ∧ runCalls c n = ModelSt.mk (some m) 1 := by
  induction n with
  | zero => exact Or.inl rfl
  | succ k ih =>
    cases ih with
    | inl h =>
      cases hc : c with
      | ok m =>
        exact Or.inr ⟨m, rfl, by
          simp [runCalls, hc, hc ▸ h, get_model, ModelSt.init]⟩
      | error e =>
        exact Or.inl (by
          simp [runCalls, hc, hc ▸ h, get_model, ModelSt.init])
    | inr h =>
      obtain ⟨m, hc, h⟩ := h
      exact Or.inr ⟨m, hc, by simp [runCalls, h, get_model]⟩

/-- C10: the model handle is constructed at most once per process
lifetime — a call on a state already holding the handle returns that same
handle and leaves the state unchanged (never recreated); the first call
that needs the model constructs it; any number of successive calls from
process start performs at most one construction; and the stdio tool's
`load_model` behaves exactly like the server's `get_model`. -/
theorem model_singleton_once {M : Type} (c : Except String M)
    (st : ModelSt M) (m : M) (n : Nat) (h : st.handle = some m) :
    get_model c st = (st, Except.ok m) ∧
    (∀ m₀, c = Except.ok m₀ →
      get_model c (ModelSt.init M) = (ModelSt.mk (some m₀) 1, Except.ok m₀)) ∧
    (runCalls c n).loads ≤ 1 ∧
    (∀ st₀, load_model c st₀ = get_model c st₀) := by
  refine ⟨?_, ?_, ?_, ?_⟩
  · obtain ⟨h₀, l₀⟩ := st
    simp only [ModelSt.handle] at h
    subst h
    rfl
  · intro m₀ hc
    subst hc
    rfl
  · cases runCalls_cases c n with
    | inl hst => simp [hst, ModelSt.init]
    | inr hst => obtain ⟨m₀, _, hst⟩ := hst; simp [hst]
  · intro st₀
    rfl

/-- Witness for C10 with a `Nat` handle: a warm state, the first call
from process start, three successive calls, and `load_model` agreement. -/
theorem model_singleton_once_witness :
    get_model (Except.ok 7) (ModelSt.mk (some 7) 1) =
      (ModelSt.mk (some 7) 1, Except.ok 7) ∧
    get_model (Except.ok 7) (ModelSt.init Nat) =
      (ModelSt.mk (some 7) 1, Except.ok 7) ∧
    (runCalls (Except.ok 7) 3).loads ≤ 1 ∧
    load_model (Except.ok 7) (ModelSt.init Nat) =
      get_model (Except.ok 7) (ModelSt.init Nat) :=
  ⟨(model_singleton_once (Except.ok 7) (ModelSt.mk (some 7) 1) 7 3 rfl).1,
   (model_singleton_once (Except.ok 7) (ModelSt.mk (some 7) 1) 7 3 rfl).2.1 7 rfl,
   (model_singleton_once (Except.ok 7) (ModelSt.mk (some 7) 1) 7 3 rfl).2.2.1,
   (model_singleton_once (Except.ok 7) (ModelSt.mk (some 7) 1) 7 3 rfl).2.2.2
     (ModelSt.init Nat)⟩
